import Mathlib

/-!
Shallow embedding of the core of the `debug-proxy` repository (a local HTTP
debugging reverse proxy written in Rust): the transaction recorder with its
body analysis (`src/recorder.rs`), the configuration store (`src/config.rs`)
and the admin routing / token gate plus the request-recording step of the
proxy pipeline (`src/proxy.rs`).

Modelling conventions:
- Rust byte slices (`&[u8]`) are `List Nat`, each entry a byte value.
- A Rust `String` whose byte-level length matters (the body `preview`) is
  kept as its byte list, so that `.length` is exactly Rust's `String::len`.
- Header maps (`http::HeaderMap`) are ordered lists of
  (lowercase name, value bytes) pairs, preserving duplicates and order,
  which is how the `http` crate iterates them.
- Nondeterministic effects (UUID generation, wall-clock time) are passed in
  as explicit parameters.
- `std::time::Duration` values are modelled as their millisecond counts,
  matching how the program constructs (`Duration::from_millis`) and
  serializes (`as_millis`) them.
-/

/-- Byte predicate of `http::HeaderValue::to_str`: a header value converts to
a string iff every byte is visible ASCII (32..=126) or a horizontal tab. -/
def is_visible_ascii (b : Nat) : Bool :=
  decide ((32 ≤ b ∧ b < 127) ∨ b = 9)

/-- View a list of ASCII byte values as a Lean string. -/
def ascii_string (v : List Nat) : String :=
  String.mk (v.map Char.ofNat)

/-- The UTF-8 bytes of an ASCII string literal, as byte values. -/
def strBytes (s : String) : List Nat :=
  s.data.map Char.toNat

/-- Model of `http::HeaderValue::to_str`: `some` of the value's characters
when every byte is visible ASCII or tab, otherwise `none` (the `Err` case). -/
def header_value_to_str (v : List Nat) : Option String :=
  if v.all is_visible_ascii then some (ascii_string v) else none

/-- How `record_request` / `record_response` store one header pair
(`src/recorder.rs` lines 96-100 and 133-137):
`(k.to_string(), v.to_str().unwrap_or("<invalid>").to_string())`. -/
def record_header (kv : String × List Nat) : String × String :=
  (kv.1, (header_value_to_str kv.2).getD "<invalid>")

/-- Model of Rust `str::starts_with` on strings. -/
def strStartsWith (s p : String) : Bool :=
  p.data.isPrefixOf s.data

/-- Model of Rust `str::ends_with` on strings. -/
def strEndsWith (s p : String) : Bool :=
  p.data.isSuffixOf s.data

/-- Lowercase one ASCII character (used by the MIME-type model; MIME type
and subtype comparisons are case-insensitive). -/
def lower_char (c : Char) : Char :=
  if 65 ≤ c.toNat ∧ c.toNat ≤ 90 then Char.ofNat (c.toNat + 32) else c

/-- Drop leading and trailing ASCII spaces from a character list. -/
def trim_spaces (l : List Char) : List Char :=
  ((l.dropWhile (fun c => c.toNat = 32)).reverse.dropWhile (fun c => c.toNat = 32)).reverse

/-- Modelled from the external `mime` crate used by `is_binary_content`
(`ct.parse::<Mime>()`): the essence before any `;`-separated parameters is
trimmed and lowercased, then split at the first `/` into a nonempty type and
a nonempty subtype. A string that does not have this shape fails to parse. -/
def parse_mime (s : String) : Option (String × String) :=
  let essence := (trim_spaces (s.data.takeWhile (fun c => c ≠ ';'))).map lower_char
  let t := essence.takeWhile (fun c => c ≠ '/')
  match essence.dropWhile (fun c => c ≠ '/') with
  | _ :: sub =>
    if t = [] ∨ sub = [] ∨ sub.contains '/' then none
    else some (String.mk t, String.mk sub)
  | [] => none

/-- The content-type allowlist of `is_binary_content` (`src/recorder.rs`
lines 232-248): a parsed MIME type marks the body as textual when it is
`text/*`, `application/json`, `application/javascript`, `application/xml`,
`application/*+json` or `application/*+xml`. Everything else, and any
unparseable or absent content type, falls through to the byte heuristic. -/
def mime_marks_textual (content_type : Option String) : Bool :=
  match content_type with
  | none => false
  | some ct =>
    match parse_mime ct with
    | none => false
    | some (t, sub) =>
      decide (t = "text" ∨
        (t = "application" ∧
          (sub = "json" ∨ sub = "javascript" ∨ sub = "xml" ∨
           strEndsWith sub "+json" = true ∨ strEndsWith sub "+xml" = true)))

/-- `RequestRecorder::is_binary_content` (`src/recorder.rs` lines 226-263):
empty bodies are not binary; a textual content type wins; otherwise any null
byte means binary; otherwise binary iff the control bytes other than tab,
newline and carriage return exceed 30 percent of the size. -/
def is_binary_content (data : List Nat) (content_type : Option String) : Bool :=
  if data.isEmpty then false
  else if mime_marks_textual content_type then false
  else if 0 < (data.filter (fun b => decide (b = 0))).length then true
  else
    decide (30 <
      (data.filter (fun b => decide (b < 32 ∧ b ≠ 9 ∧ b ≠ 10 ∧ b ≠ 13))).length
        * 100 / data.length)

/-- Whether a byte value is a UTF-8 continuation byte (0x80..=0xBF). -/
def utf8_cont (b : Nat) : Bool :=
  decide (128 ≤ b ∧ b ≤ 191)

/-- Model of `std::str::from_utf8(bytes).is_ok()`: RFC 3629 UTF-8 validity,
rejecting overlong encodings, surrogates and code points above U+10FFFF. -/
def utf8Valid : List Nat → Bool
  | [] => true
  | b :: rest =>
    if b < 128 then utf8Valid rest
    else if 194 ≤ b ∧ b ≤ 223 then
      match rest with
      | c1 :: rest1 => utf8_cont c1 && utf8Valid rest1
      | [] => false
    else if 224 ≤ b ∧ b ≤ 239 then
      match rest with
      | c1 :: c2 :: rest2 =>
        (if b = 224 then decide (160 ≤ c1 ∧ c1 ≤ 191)
         else if b = 237 then decide (128 ≤ c1 ∧ c1 ≤ 159)
         else utf8_cont c1) && utf8_cont c2 && utf8Valid rest2
      | _ => false
    else if 240 ≤ b ∧ b ≤ 244 then
      match rest with
      | c1 :: c2 :: c3 :: rest3 =>
        (if b = 240 then decide (144 ≤ c1 ∧ c1 ≤ 191)
         else if b = 244 then decide (128 ≤ c1 ∧ c1 ≤ 143)
         else utf8_cont c1) && utf8_cont c2 && utf8_cont c3 && utf8Valid rest3
      | _ => false
    else false

/-- `headers.get("content-type").and_then(|v| v.to_str().ok())` from
`analyze_body` (`src/recorder.rs` lines 190-193): the first value stored
under the (lowercase-normalized) `content-type` name, when it converts. -/
def get_content_type (headers : List (String × List Nat)) : Option String :=
  match headers.find? (fun kv => kv.1 = "content-type") with
  | some kv => header_value_to_str kv.2
  | none => none

/-- The captured body analysis (`BodyRecord` in `src/recorder.rs`). The
`preview` field keeps the bytes of the Rust `String`, so `preview.length`
is Rust's `preview.len()`. -/
structure BodyRecord where
  content_type : Option String
  size : Nat
  preview : List Nat
  is_binary : Bool
  truncated : Bool
  deriving Repr, DecidableEq

/-- `RequestRecorder::analyze_body` (`src/recorder.rs` lines 188-224). -/
def analyze_body (body : List Nat) (headers : List (String × List Nat))
    (truncate_at : Nat) : BodyRecord :=
  let size := body.length
  let content_type := get_content_type headers
  let is_binary := is_binary_content body content_type
  let truncated := decide (truncate_at < size)
  let preview : List Nat :=
    if is_binary then
      if size = 0 then [] else strBytes ("<binary data: " ++ toString size ++ " bytes>")
    else
      let preview_bytes := if truncated then body.take (min truncate_at size) else body
      if utf8Valid preview_bytes then preview_bytes
      else strBytes ("<invalid UTF-8: " ++ toString size ++ " bytes>")
  { content_type := content_type, size := size, preview := preview,
    is_binary := is_binary, truncated := truncated }

/-- `RequestRecord` (`src/recorder.rs` lines 29-39). -/
structure RequestRecord where
  id : String
  timestamp : Nat
  method : String
  path : String
  version : String
  headers : List (String × String)
  body : BodyRecord
  client_addr : String
  deriving Repr, DecidableEq

/-- `ResponseRecord` (`src/recorder.rs` lines 41-50). -/
structure ResponseRecord where
  id : String
  timestamp : Nat
  status : Nat
  version : String
  headers : List (String × String)
  body : BodyRecord
  duration_ms : Nat
  deriving Repr, DecidableEq

/-- `HttpTransaction` (`src/recorder.rs` lines 61-66). -/
structure HttpTransaction where
  request : RequestRecord
  response : Option ResponseRecord
  error : Option String
  deriving Repr, DecidableEq

/-- `RequestInfo` (`src/recorder.rs` lines 9-17). The `version` field is the
`format!("{:?}", version)` label of the HTTP version. -/
structure RequestInfo where
  method : String
  path : String
  version : String
  headers : List (String × List Nat)
  body : List Nat
  client_addr : String
  truncate_at : Nat
  deriving Repr, DecidableEq

/-- `ResponseInfo` (`src/recorder.rs` lines 19-27). -/
structure ResponseInfo where
  request_id : String
  status : Nat
  version : String
  headers : List (String × List Nat)
  body : List Nat
  duration_ms : Nat
  truncate_at : Nat
  deriving Repr, DecidableEq

/-- The state of a `RequestRecorder` (`src/recorder.rs` lines 68-71): the
`VecDeque` of transactions (front first) and the `max_size` field fixed by
`RequestRecorder::new`. The `VecDeque`'s spare capacity has no observable
effect and is not modelled. -/
structure RecorderState where
  transactions : List HttpTransaction
  max_size : Nat
  deriving Repr, DecidableEq

/-- The `RequestRecord` built by `record_request` (`src/recorder.rs` lines
90-103); the fresh UUID and the timestamp are passed in explicitly. -/
def mk_request_record (id : String) (timestamp : Nat) (info : RequestInfo) :
    RequestRecord :=
  { id := id, timestamp := timestamp, method := info.method, path := info.path,
    version := info.version,
    headers := info.headers.map record_header,
    body := analyze_body info.body info.headers info.truncate_at,
    client_addr := info.client_addr }

/-- The transaction pushed by `record_request` (`src/recorder.rs` lines
105-109): request present, response and error absent. -/
def mk_transaction (id : String) (timestamp : Nat) (info : RequestInfo) :
    HttpTransaction :=
  { request := mk_request_record id timestamp info, response := none, error := none }

/-- `RequestRecorder::record_request` (`src/recorder.rs` lines 81-118): build
the transaction, pop the front when `len >= max_size`, push at the back.
`VecDeque::pop_front` on an empty deque is a no-op, as is `List.tail` on
`[]`. -/
def record_request (s : RecorderState) (id : String) (timestamp : Nat)
    (info : RequestInfo) : RecorderState :=
  let transaction := mk_transaction id timestamp info
  let ts := if s.max_size ≤ s.transactions.length then s.transactions.tail
            else s.transactions
  { s with transactions := ts ++ [transaction] }

/-- The `ResponseRecord` built by `record_response` (`src/recorder.rs` lines
128-140). -/
def mk_response_record (timestamp : Nat) (info : ResponseInfo) : ResponseRecord :=
  { id := info.request_id, timestamp := timestamp, status := info.status,
    version := info.version,
    headers := info.headers.map record_header,
    body := analyze_body info.body info.headers info.truncate_at,
    duration_ms := info.duration_ms }

/-- `iter_mut().find(|t| t.request.id == rid)` followed by the assignment of
the response: the first transaction with the matching request id receives
the response; the rest are untouched. -/
def attach_response : List HttpTransaction → String → ResponseRecord →
    List HttpTransaction
  | [], _, _ => []
  | t :: rest, rid, resp =>
    if t.request.id = rid then { t with response := some resp } :: rest
    else t :: attach_response rest rid resp

/-- `RequestRecorder::record_response` (`src/recorder.rs` lines 120-149). -/
def record_response (s : RecorderState) (timestamp : Nat) (info : ResponseInfo) :
    RecorderState :=
  { s with transactions :=
      attach_response s.transactions info.request_id (mk_response_record timestamp info) }

/-- `RequestRecorder::get_transactions` (`src/recorder.rs` lines 158-160):
a copy of the ring, front first (insertion order). -/
def get_transactions (s : RecorderState) : List HttpTransaction :=
  s.transactions

/-- `RequestRecorder::clear` (`src/recorder.rs` lines 176-178). -/
def clear (s : RecorderState) : RecorderState :=
  { s with transactions := [] }

/-- `RequestRecorder::resize` (`src/recorder.rs` lines 180-186): pop the
front while `len > new_size`, then `reserve(new_size)` (a capacity hint
with no observable effect). Note that the `max_size` field is not updated. -/
def resize (s : RecorderState) (new_size : Nat) : RecorderState :=
  { s with transactions :=
      s.transactions.drop (s.transactions.length - new_size) }

/-- One `record_request` call with its nondeterministic inputs (the fresh
UUID and the timestamp) made explicit. -/
structure TimedRequest where
  id : String
  timestamp : Nat
  info : RequestInfo
  deriving Repr, DecidableEq

/-- The transaction a `TimedRequest` turns into. -/
def mkT (r : TimedRequest) : HttpTransaction :=
  mk_transaction r.id r.timestamp r.info

/-- A sequence of `record_request` calls, in order. -/
def record_all (s : RecorderState) (reqs : List TimedRequest) : RecorderState :=
  reqs.foldl (fun st r => record_request st r.id r.timestamp r.info) s

/-- The last `k` elements of a list (all of it when it is shorter). -/
def lastN (k : Nat) (l : List α) : List α :=
  l.drop (l.length - k)

/-- `ProxyConfig` (`src/config.rs` lines 6-14), durations in milliseconds. -/
structure ProxyConfig where
  client_timeout : Nat
  upstream_timeout : Nat
  max_history_size : Nat
  max_body_size : Nat
  truncate_body_at : Nat
  access_token : String
  deriving Repr, DecidableEq

/-- `ConfigUpdate` (`src/config.rs` lines 79-86): a partial update; there is
no field for the access token. -/
structure ConfigUpdate where
  client_timeout_ms : Option Nat
  upstream_timeout_ms : Option Nat
  max_history_size : Option Nat
  max_body_size : Option Nat
  truncate_body_at : Option Nat
  deriving Repr, DecidableEq

/-- `ConfigUpdate::apply_to` (`src/config.rs` lines 88-106): five sequential
`if let Some` assignments, one per optional field. -/
def apply_to (u : ConfigUpdate) (c : ProxyConfig) : ProxyConfig :=
  let c1 := match u.client_timeout_ms with
    | some t => { c with client_timeout := t }
    | none => c
  let c2 := match u.upstream_timeout_ms with
    | some t => { c1 with upstream_timeout := t }
    | none => c1
  let c3 := match u.max_history_size with
    | some n => { c2 with max_history_size := n }
    | none => c2
  let c4 := match u.max_body_size with
    | some n => { c3 with max_body_size := n }
    | none => c3
  match u.truncate_body_at with
  | some n => { c4 with truncate_body_at := n }
  | none => c4

/-- The JSON body of `DebugProxy::serve_config` (`src/proxy.rs` lines
302-319): exactly the five numeric fields, serialized by `serde_json`
(whose map keeps keys in sorted order); the access token is absent. -/
def serve_config_body (c : ProxyConfig) : String :=
  "\x7b\"client_timeout_ms\":" ++ toString c.client_timeout ++
  ",\"max_body_size\":" ++ toString c.max_body_size ++
  ",\"max_history_size\":" ++ toString c.max_history_size ++
  ",\"truncate_body_at\":" ++ toString c.truncate_body_at ++
  ",\"upstream_timeout_ms\":" ++ toString c.upstream_timeout ++ "\x7d"

/-- Lookup in the `HashMap<String, String>` collected from
`url::form_urlencoded::parse(query)`: on duplicate keys the map keeps the
last inserted value, so lookup finds the last pair with the key. The pairs
are already percent-decoded by the parser. -/
def hash_map_get (params : List (String × String)) (key : String) :
    Option String :=
  (params.reverse.find? (fun p => p.1 = key)).map (fun p => p.2)

/-- The outcome of `DebugProxy::handle_admin_request`: either an early
concrete response (401 or 404) or the dispatched action. -/
inductive AdminResult where
  | response (status : Nat) (body : String)
  | serveAdminUi
  | serveConfig
  | updateConfig
  | serveLogs
  | clearLogs
  | serveStaticAsset (path : String)
  deriving Repr, DecidableEq

/-- The routing match of `handle_admin_request` (`src/proxy.rs` lines
266-282). -/
def admin_route (method path : String) : AdminResult :=
  if method = "GET" ∧ (path = "/_proxy" ∨ path = "/_proxy/") then .serveAdminUi
  else if method = "GET" ∧ path = "/_proxy/api/config" then .serveConfig
  else if method = "POST" ∧ path = "/_proxy/api/config" then .updateConfig
  else if method = "GET" ∧ path = "/_proxy/api/logs" then .serveLogs
  else if method = "DELETE" ∧ path = "/_proxy/api/logs" then .clearLogs
  else if method = "GET" ∧ strStartsWith path "/_proxy/assets/" = true then
    .serveStaticAsset path
  else .response 404 "Not Found"

/-- `DebugProxy::handle_admin_request` (`src/proxy.rs` lines 233-283): the
token gate (skipped for static-asset paths) followed by the routing match.
`query_params` is the decoded query collected into a `HashMap`. -/
def handle_admin_request (method path : String)
    (query_params : List (String × String)) (expected_token : String) :
    AdminResult :=
  let is_static_asset := strStartsWith path "/_proxy/assets/"
  if is_static_asset = false ∧ hash_map_get query_params "token" ≠ some expected_token then
    .response 401 "Unauthorized - Invalid or missing token"
  else admin_route method path

/-- A request URI split into its path and optional query, as `http::Uri`
exposes them. -/
structure Uri where
  path : String
  query : Option String
  deriving Repr, DecidableEq

/-- `Uri::path_and_query` rendered as a string: the path followed by
`?query` when a query is present. -/
def path_and_query (u : Uri) : String :=
  u.path ++ match u.query with
  | none => ""
  | some q => "?" ++ q

/-- The `RequestInfo` built by the proxied-request pipeline
(`src/proxy.rs` lines 113-123): the recorded path is `uri.path()` and the
client address is the literal `"unknown"`. -/
def proxy_request_info (method : String) (u : Uri) (version : String)
    (headers : List (String × List Nat)) (body : List Nat)
    (truncate_at : Nat) : RequestInfo :=
  { method := method, path := u.path, version := version, headers := headers,
    body := body, client_addr := "unknown", truncate_at := truncate_at }

/-- A minimal concrete `RequestInfo` used by concrete evaluations. -/
def sample_info (p : String) : RequestInfo :=
  { method := "GET", path := p, version := "HTTP/1.1", headers := [], body := [],
    client_addr := "unknown", truncate_at := 100 }

/-- Three concrete recorded requests. -/
def sample_reqs : List TimedRequest :=
  [⟨"id0", 0, sample_info "/t0"⟩, ⟨"id1", 1, sample_info "/t1"⟩,
   ⟨"id2", 2, sample_info "/t2"⟩]

/-- A concrete configuration (the default values of `ProxyConfig`). -/
def sample_config : ProxyConfig :=
  { client_timeout := 30000, upstream_timeout := 500, max_history_size := 100,
    max_body_size := 1048576, truncate_body_at := 1024,
    access_token := "secret-token" }

/-- The `ConfigUpdate` with every field absent. -/
def empty_update : ConfigUpdate :=
  { client_timeout_ms := none, upstream_timeout_ms := none,
    max_history_size := none, max_body_size := none, truncate_body_at := none }

/-! Helper lemmas about the recorder ring. -/

theorem record_all_cons (s : RecorderState) (r : TimedRequest)
    (rest : List TimedRequest) :
    record_all s (r :: rest) =
    record_all (record_request s r.id r.timestamp r.info) rest := rfl

theorem record_request_max_size (s : RecorderState) (id : String) (ts : Nat)
    (info : RequestInfo) :
    (record_request s id ts info).max_size = s.max_size := rfl

theorem record_all_max_size (reqs : List TimedRequest) :
    ∀ s : RecorderState, (record_all s reqs).max_size = s.max_size := by
  induction reqs with
  | nil => intro s; rfl
  | cons r rest ih =>
    intro s
    rw [record_all_cons]
    exact ih (record_request s r.id r.timestamp r.info)

theorem lastN_cons_of_le {α : Type} (k : Nat) (a : α) (l : List α)
    (h : k ≤ l.length) : lastN k (a :: l) = lastN k l := by
  unfold lastN
  have h1 : (a :: l).length - k = (l.length - k) + 1 := by
    simp only [List.length_cons]
    omega
  rw [h1, List.drop_succ_cons]

theorem record_all_ring (reqs : List TimedRequest) :
    ∀ s : RecorderState, 0 < s.max_size →
    s.transactions.length ≤ s.max_size →
    (record_all s reqs).transactions =
      lastN s.max_size (s.transactions ++ reqs.map mkT) := by
  induction reqs with
  | nil =>
    intro s _ hle
    simp [record_all, lastN, Nat.sub_eq_zero_of_le hle]
  | cons r rest ih =>
    intro s hpos hle
    rw [record_all_cons]
    by_cases hful : s.max_size ≤ s.transactions.length
    · have hlen : s.transactions.length = s.max_size := le_antisymm hle hful
      have hts : (record_request s r.id r.timestamp r.info).transactions =
          s.transactions.tail ++ [mkT r] := by
        simp [record_request, if_pos hful, mkT]
      have hlen2 : (record_request s r.id r.timestamp r.info).transactions.length
          ≤ s.max_size := by
        rw [hts]
        simp [List.length_tail]
        omega
      have hres := ih (record_request s r.id r.timestamp r.info) hpos hlen2
      rw [record_request_max_size] at hres
      rw [hres, hts]
      cases hcase : s.transactions with
      | nil =>
        rw [hcase] at hlen
        simp at hlen
        omega
      | cons a t =>
        have htl : t.length + 1 = s.max_size := by
          rw [hcase] at hlen
          simpa using hlen
        have hlen3 : s.max_size ≤ (t ++ (mkT r :: List.map mkT rest)).length := by
          simp
          omega
        calc lastN s.max_size ((a :: t).tail ++ [mkT r] ++ List.map mkT rest)
            = lastN s.max_size (t ++ (mkT r :: List.map mkT rest)) := by simp
          _ = lastN s.max_size (a :: (t ++ (mkT r :: List.map mkT rest))) :=
              (lastN_cons_of_le _ _ _ hlen3).symm
          _ = lastN s.max_size ((a :: t) ++ (mkT r :: List.map mkT rest)) := by
              simp
    · push_neg at hful
      have hts : (record_request s r.id r.timestamp r.info).transactions =
          s.transactions ++ [mkT r] := by
        simp [record_request, if_neg (not_le.mpr hful), mkT]
      have hlen2 : (record_request s r.id r.timestamp r.info).transactions.length
          ≤ s.max_size := by
        rw [hts]
        simp
        omega
      have hres := ih (record_request s r.id r.timestamp r.info) hpos hlen2
      rw [record_request_max_size] at hres
      rw [hres, hts]
      simp [List.append_assoc]

theorem tail_of_len_le_one {α : Type} (l : List α) (h : l.length ≤ 1) :
    l.tail = [] := by
  cases l with
  | nil => rfl
  | cons a t =>
    cases t with
    | nil => rfl
    | cons b t2 => simp at h

theorem record_request_zero_cap (s : RecorderState) (h0 : s.max_size = 0)
    (h1 : s.transactions.length ≤ 1) (id : String) (ts : Nat)
    (info : RequestInfo) :
    (record_request s id ts info).transactions = [mk_transaction id ts info] := by
  simp [record_request, h0, tail_of_len_le_one s.transactions h1]

theorem record_all_zero_cap_len (reqs : List TimedRequest) :
    ∀ s : RecorderState, s.max_size = 0 → s.transactions.length ≤ 1 →
    (record_all s reqs).transactions.length ≤ 1 := by
  induction reqs with
  | nil => intro s _ h1; exact h1
  | cons r rest ih =>
    intro s h0 h1
    rw [record_all_cons]
    refine ih _ h0 ?_
    rw [record_request_zero_cap s h0 h1]
    simp

/-! The claim theorems. -/

/-- C1 (code bug): the spec says `max_history_size` is respected at all
times after a resize, but `RequestRecorder::resize` never updates the
`max_size` field consulted by `record_request`. Concretely: a recorder built
with capacity 2 holding two transactions is resized to 1 — the ring
immediately holds 1 transaction — yet the very next `record_request`
compares against the stale capacity 2 and the ring regrows to length 2. -/
theorem resize_stale_capacity_bug :
    (resize (record_all ⟨[], 2⟩ [⟨"id0", 0, sample_info "/t0"⟩,
        ⟨"id1", 1, sample_info "/t1"⟩]) 1).transactions.length = 1 ∧
    (record_request (resize (record_all ⟨[], 2⟩ [⟨"id0", 0, sample_info "/t0"⟩,
        ⟨"id1", 1, sample_info "/t1"⟩]) 1) "id2" 2
      (sample_info "/t2")).transactions.length = 2 := by decide

/-- C2: for a recorder of positive capacity C and any sequence of N
`record_request` calls, `get_transactions` returns exactly min(N, C)
transactions, in insertion order, and they are exactly the transactions of
the last min(N, C) requests inserted. -/
theorem recorder_capacity_law (C : Nat) (hC : 0 < C)
    (reqs : List TimedRequest) :
    get_transactions (record_all ⟨[], C⟩ reqs) = lastN C (reqs.map mkT) ∧
    (get_transactions (record_all ⟨[], C⟩ reqs)).length = min reqs.length C := by
  have h := record_all_ring reqs ⟨[], C⟩ hC (by simp)
  constructor
  · simpa [get_transactions] using h
  · rw [get_transactions, h]
    simp [lastN]
    omega

theorem recorder_capacity_law_witness :
    0 < 2 ∧
    (get_transactions (record_all ⟨[], 2⟩ sample_reqs) =
      lastN 2 (sample_reqs.map mkT) ∧
    (get_transactions (record_all ⟨[], 2⟩ sample_reqs)).length =
      min sample_reqs.length 2) :=
  ⟨by decide, recorder_capacity_law 2 (by decide) sample_reqs⟩

/-- C7: applying a `ConfigUpdate` changes only the fields present in the
update — every absent field keeps its value — and the `access_token` field
is never changed by any update. -/
theorem apply_to_frame (u : ConfigUpdate) (c : ProxyConfig) :
    (apply_to u c).access_token = c.access_token ∧
    (u.client_timeout_ms = none →
      (apply_to u c).client_timeout = c.client_timeout) ∧
    (u.upstream_timeout_ms = none →
      (apply_to u c).upstream_timeout = c.upstream_timeout) ∧
    (u.max_history_size = none →
      (apply_to u c).max_history_size = c.max_history_size) ∧
    (u.max_body_size = none →
      (apply_to u c).max_body_size = c.max_body_size) ∧
    (u.truncate_body_at = none →
      (apply_to u c).truncate_body_at = c.truncate_body_at) := by
  obtain ⟨f1, f2, f3, f4, f5⟩ := u
  cases f1 <;> cases f2 <;> cases f3 <;> cases f4 <;> cases f5 <;>
    simp [apply_to]

theorem apply_to_frame_witness :
    (apply_to empty_update sample_config).access_token =
      sample_config.access_token ∧
    (apply_to empty_update sample_config).client_timeout =
      sample_config.client_timeout ∧
    (apply_to empty_update sample_config).upstream_timeout =
      sample_config.upstream_timeout ∧
    (apply_to empty_update sample_config).max_history_size =
      sample_config.max_history_size ∧
    (apply_to empty_update sample_config).max_body_size =
      sample_config.max_body_size ∧
    (apply_to empty_update sample_config).truncate_body_at =
      sample_config.truncate_body_at :=
  ⟨(apply_to_frame empty_update sample_config).1,
   (apply_to_frame empty_update sample_config).2.1 rfl,
   (apply_to_frame empty_update sample_config).2.2.1 rfl,
   (apply_to_frame empty_update sample_config).2.2.2.1 rfl,
   (apply_to_frame empty_update sample_config).2.2.2.2.1 rfl,
   (apply_to_frame empty_update sample_config).2.2.2.2.2 rfl⟩

/-- C8: the body served by GET /_proxy/api/config is independent of the
access token — two configurations differing only in `access_token` produce
identical bodies, which contain exactly the five numeric fields. -/
theorem serve_config_token_independent (c : ProxyConfig) (t : String) :
    serve_config_body { c with access_token := t } = serve_config_body c := rfl

/-- C9: a recorder constructed with capacity 0 still inserts on every
`record_request`: after any such call (at the end of any call sequence) the
ring holds exactly the one transaction of the most recent request — the
eviction-before-insert order means the ring is never empty after an
insert. -/
theorem zero_capacity_keeps_last (reqs : List TimedRequest) (r : TimedRequest) :
    get_transactions (record_all ⟨[], 0⟩ (reqs ++ [r])) = [mkT r] := by
  have hsplit : record_all ⟨[], 0⟩ (reqs ++ [r]) =
      record_request (record_all ⟨[], 0⟩ reqs) r.id r.timestamp r.info := by
    simp [record_all, List.foldl_append]
  rw [get_transactions, hsplit]
  exact record_request_zero_cap _ (record_all_max_size reqs ⟨[], 0⟩)
    (record_all_zero_cap_len reqs ⟨[], 0⟩ rfl (by simp)) r.id r.timestamp r.info

/-- C10: every header value that does not convert to a visible-ASCII string
is stored as the literal "<invalid>" in both request and response records;
all other header pairs are stored verbatim, and the stored header list is
the one-for-one image of the incoming header list, preserving order and
duplicates. -/
theorem headers_invalid_placeholder :
    (∀ (id : String) (ts : Nat) (info : RequestInfo),
      (mk_request_record id ts info).headers = info.headers.map record_header) ∧
    (∀ (ts : Nat) (info : ResponseInfo),
      (mk_response_record ts info).headers = info.headers.map record_header) ∧
    (∀ (k : String) (v : List Nat), v.all is_visible_ascii = false →
      record_header (k, v) = (k, "<invalid>")) ∧
    (∀ (k : String) (v : List Nat), v.all is_visible_ascii = true →
      record_header (k, v) = (k, ascii_string v)) := by
  refine ⟨fun _ _ _ => rfl, fun _ _ => rfl, ?_, ?_⟩
  · intro k v h
    simp [record_header, header_value_to_str, h]
  · intro k v h
    simp [record_header, header_value_to_str, h]

/-- C3: every admin request to a non-asset path whose (decoded) query
carries no pair ("token", stored token) is answered 401 with body
"Unauthorized - Invalid or missing token"; requests whose path starts with
/_proxy/assets/ are handled identically for any stored token, i.e. without
a token check. -/
theorem admin_token_gate :
    (∀ (method path : String) (params : List (String × String)) (tok : String),
      strStartsWith path "/_proxy" = true →
      strStartsWith path "/_proxy/assets/" = false →
      (∀ p ∈ params, ¬(p.1 = "token" ∧ p.2 = tok)) →
      handle_admin_request method path params tok =
        .response 401 "Unauthorized - Invalid or missing token") ∧
    (∀ (method path : String) (params : List (String × String)) (t1 t2 : String),
      strStartsWith path "/_proxy/assets/" = true →
      handle_admin_request method path params t1 =
        handle_admin_request method path params t2) := by
  constructor
  · intro method path params tok _ hassets hno
    have hget : hash_map_get params "token" ≠ some tok := by
      intro heq
      unfold hash_map_get at heq
      cases hfind : params.reverse.find? (fun p => p.1 = "token") with
      | none =>
        rw [hfind] at heq
        simp at heq
      | some p =>
        rw [hfind] at heq
        simp at heq
        have hp1 : p.1 = "token" := by
          have := List.find?_some hfind
          simpa using this
        have hmem : p ∈ params := List.mem_reverse.mp (List.mem_of_find?_eq_some hfind)
        exact hno p hmem ⟨hp1, heq⟩
    simp [handle_admin_request, hassets, hget]
  · intro method path params t1 t2 h
    simp [handle_admin_request, h]

theorem admin_token_gate_witness :
    handle_admin_request "GET" "/_proxy/api/config" [("token", "wrong")] "secret"
      = .response 401 "Unauthorized - Invalid or missing token" ∧
    handle_admin_request "GET" "/_proxy/assets/app.js" [] "a"
      = handle_admin_request "GET" "/_proxy/assets/app.js" [] "b" :=
  ⟨admin_token_gate.1 "GET" "/_proxy/api/config" [("token", "wrong")] "secret"
     (by decide) (by decide) (by decide),
   admin_token_gate.2 "GET" "/_proxy/assets/app.js" [] "a" "b" (by decide)⟩

/-- C4 (counterexample): a body consisting of the single byte 0x00, sent
with a `content-type: text/plain` header, is classified as NOT binary —
the content-type allowlist is consulted before the null-byte heuristic —
refuting the claim's "regardless of any content-type header". -/
theorem null_byte_text_plain_counterexample :
    (analyze_body [0] [("content-type", strBytes "text/plain")] 100).is_binary
      = false := by decide

/-- C4 (amended): for every body containing a 0x00 byte whose content-type
header does not classify it as textual (absent, unparseable, or outside the
textual allowlist), body analysis sets is_binary = true. -/
theorem null_byte_binary (body : List Nat) (headers : List (String × List Nat))
    (truncate_at : Nat) (h0 : 0 ∈ body)
    (hmime : mime_marks_textual (get_content_type headers) = false) :
    (analyze_body body headers truncate_at).is_binary = true := by
  have hne : body ≠ [] := List.ne_nil_of_mem h0
  have hisempty : body.isEmpty = false := by
    cases body with
    | nil => exact absurd rfl hne
    | cons a t => rfl
  have hnull : 0 < (body.filter (fun b => decide (b = 0))).length :=
    List.length_pos_of_mem (List.mem_filter.mpr ⟨h0, by decide⟩)
  simp only [analyze_body]
  show is_binary_content body (get_content_type headers) = true
  simp [is_binary_content, hisempty, hmime, hnull]

theorem null_byte_binary_witness :
    (0 ∈ ([7, 0, 7] : List Nat)) ∧
    mime_marks_textual (get_content_type []) = false ∧
    (analyze_body [7, 0, 7] [] 5).is_binary = true :=
  ⟨by decide, by decide, null_byte_binary [7, 0, 7] [] 5 (by decide) (by decide)⟩

/-- C5 (counterexample): truncate_at = 1 and the two-byte UTF-8 body
[0xC3, 0xA9] (a single two-byte character): the body is non-binary and
truncated, but the one-byte truncated prefix is invalid UTF-8, so the
preview is the 24-byte placeholder "<invalid UTF-8: 2 bytes>", which
exceeds truncate_at. -/
theorem truncated_preview_counterexample :
    (analyze_body [195, 169] [] 1).is_binary = false ∧
    (analyze_body [195, 169] [] 1).truncated = true ∧
    ¬((analyze_body [195, 169] [] 1).preview.length ≤ 1) := by decide

/-- C5 (amended): for every body longer than truncate_at, body analysis
sets truncated = true; and when the body is classified non-binary and the
truncated prefix is valid UTF-8, the preview is at most truncate_at bytes
long. -/
theorem truncated_preview_bound (body : List Nat)
    (headers : List (String × List Nat)) (truncate_at : Nat)
    (h : truncate_at < body.length) :
    (analyze_body body headers truncate_at).truncated = true ∧
    ((analyze_body body headers truncate_at).is_binary = false →
      utf8Valid (body.take truncate_at) = true →
      (analyze_body body headers truncate_at).preview.length ≤ truncate_at) := by
  have hmin : min truncate_at body.length = truncate_at :=
    Nat.min_eq_left (Nat.le_of_lt h)
  constructor
  · simp [analyze_body, h]
  · intro hbin hvalid
    simp only [analyze_body] at hbin ⊢
    rw [show (decide (truncate_at < body.length)) = true by simp [h]]
    rw [hbin] at *
    simp only [Bool.false_eq_true, if_false, if_true, hmin, hvalid]
    simp [List.length_take]

theorem truncated_preview_bound_witness :
    (1 < ([104, 105] : List Nat).length) ∧
    (analyze_body [104, 105] [] 1).truncated = true ∧
    (analyze_body [104, 105] [] 1).preview.length ≤ 1 :=
  ⟨by decide, (truncated_preview_bound [104, 105] [] 1 (by decide)).1,
   (truncated_preview_bound [104, 105] [] 1 (by decide)).2 (by decide) (by decide)⟩

/-- C6 (counterexample): a proxied request whose URI has path "/a" and query
"q=1" is recorded with path "/a", not with path + query "/a?q=1" — the
pipeline passes `uri.path()` to the recorder. -/
theorem recorded_path_counterexample :
    ((record_request ⟨[], 5⟩ "id" 0
        (proxy_request_info "GET" ⟨"/a", some "q=1"⟩ "HTTP/1.1" [] [] 10)
      ).transactions.getLast?).map (fun t => t.request.path)
      ≠ some (path_and_query ⟨"/a", some "q=1"⟩) := by decide

/-- C6 (amended): the path field of the recorded RequestRecord contains
exactly the request URI's path, without its query string. -/
theorem recorded_path_is_uri_path (s : RecorderState) (id : String) (ts : Nat)
    (method : String) (u : Uri) (version : String)
    (headers : List (String × List Nat)) (body : List Nat) (truncate_at : Nat) :
    ((record_request s id ts
        (proxy_request_info method u version headers body truncate_at)
      ).transactions.getLast?).map (fun t => t.request.path) = some u.path := by
  simp [record_request, mk_transaction, mk_request_record, proxy_request_info]

theorem headers_invalid_placeholder_witness :
    ([200] : List Nat).all is_visible_ascii = false ∧
    record_header ("x-bin", [200]) = ("x-bin", "<invalid>") ∧
    (strBytes "abc").all is_visible_ascii = true ∧
    record_header ("x-ok", strBytes "abc") = ("x-ok", ascii_string (strBytes "abc")) :=
  ⟨by decide, headers_invalid_placeholder.2.2.1 "x-bin" [200] (by decide),
   by decide, headers_invalid_placeholder.2.2.2 "x-ok" (strBytes "abc") (by decide)⟩
